import Mathlib

/-!
Verification of `src/rand_custom.cpp` from the scran repository.

The file embeds the two functions of that translation unit:

* `check_pcg_vectors(const Rcpp::List seeds, Rcpp::IntegerVector streams,
  size_t N, const char* msg)` — checks that both input vectors have length
  `N`, throwing a `std::runtime_error` with a formatted message otherwise.
  Throwing is embedded as `Except String`, the thrown message being the
  error value; normal return is `Except.ok ()`.  The element type of the
  `Rcpp::List` of seeds is opaque to the function (only `.size()` is
  called), so it is embedded as a type parameter `α`; the
  `Rcpp::IntegerVector` of streams is a `List Int`.  `size_t N` is a `Nat`
  and the lengths `seeds.size()` / `streams.size()` are `List.length`.

* `create_pcg32(SEXP seed, int stream)` — forwards the seed through the
  external `convert_seed<uint64_t>` collaborator and constructs a `pcg32`
  from the converted value and the stream index.
-/

/-- Embedding of `check_pcg_vectors` from `src/rand_custom.cpp`.
The two `if` statements of the source are translated in order; each
builds its message with the stream-insertion chain
`"number of " << msg << " ... should be the same"` and throws it. -/
def check_pcg_vectors {α : Type} (seeds : List α) (streams : List Int)
    (N : Nat) (msg : String) : Except String Unit :=
  if seeds.length ≠ N then
    Except.error ("number of " ++ msg ++ " and seeds should be the same")
  else if streams.length ≠ N then
    Except.error ("number of " ++ msg ++ " and streams should be the same")
  else
    Except.ok ()

/-- The caller-visible memory `check_pcg_vectors` can observe: the two
sequences, the expected count and the label, exactly the four arguments of
the C++ function.  Used to state frame (no-mutation) properties. -/
structure CheckState (α : Type) where
  seeds : List α
  streams : List Int
  N : Nat
  msg : String
deriving DecidableEq

/-- State-passing embedding of `check_pcg_vectors`: each statement of the
source is translated together with the state it leaves behind.  The body
only calls `seeds.size()` and `streams.size()` (reads) and builds local
`std::stringstream` objects, so no branch writes to the caller's state. -/
def check_pcg_vectors_st {α : Type} (st : CheckState α) :
    Except String Unit × CheckState α :=
  if st.seeds.length ≠ st.N then
    (Except.error ("number of " ++ st.msg ++ " and seeds should be the same"), st)
  else if st.streams.length ≠ st.N then
    (Except.error ("number of " ++ st.msg ++ " and streams should be the same"), st)
  else
    (Except.ok (), st)

/-- Modelled from the spec: the handle of the externally specified 32-bit
permuted-congruential generator (`pcg32` from the external PCG library,
not part of `src/`).  Per the spec the constructor initializes the
generator with the converted seed and the given stream index; the handle
records exactly those two initialization inputs. -/
structure Pcg32Handle where
  seed : Nat
  stream : Int
deriving DecidableEq

/-- Embedding of `create_pcg32` from `src/rand_custom.cpp`.  The external
`convert_seed<uint64_t>` collaborator (not part of `src/`; the spec calls
it `SeedConverter.convert`, failing with `SeedConversionError` on invalid
input) is passed as a parameter `convert_seed` over an opaque host value
type `σ`.  The source is `return pcg32(convert_seed<uint64_t>(seed),
stream);`: a throw inside `convert_seed` propagates out of the
expression before any `pcg32` is constructed, hence the `match`. -/
def create_pcg32 {σ : Type} (convert_seed : σ → Except String Nat)
    (seed : σ) (stream : Int) : Except String Pcg32Handle :=
  match convert_seed seed with
  | Except.ok s => Except.ok ⟨s, stream⟩
  | Except.error e => Except.error e

/-- C1: for every expected count `N`, label, and pair of sequences whose
lengths both equal `N`, `check_pcg_vectors` returns success. -/
theorem check_pcg_vectors_ok {α : Type} (seeds : List α) (streams : List Int)
    (N : Nat) (msg : String)
    (hs : seeds.length = N) (ht : streams.length = N) :
    check_pcg_vectors seeds streams N msg = Except.ok () := by
  simp [check_pcg_vectors, hs, ht]

/-- C1 witness: `N = 0` with both sequences empty succeeds. -/
theorem check_pcg_vectors_ok_witness :
    check_pcg_vectors ([] : List Nat) ([] : List Int) 0 "workers"
      = Except.ok () :=
  check_pcg_vectors_ok [] [] 0 "workers" rfl rfl

/-- C2: whenever the seed sequence's length differs from `N`,
`check_pcg_vectors` fails with exactly the seeds-mismatch message with the
caller's label substituted, regardless of the stream sequence's length. -/
theorem check_pcg_vectors_seed_mismatch {α : Type} (seeds : List α)
    (streams : List Int) (N : Nat) (msg : String)
    (hs : seeds.length ≠ N) :
    check_pcg_vectors seeds streams N msg
      = Except.error ("number of " ++ msg ++ " and seeds should be the same") := by
  simp [check_pcg_vectors, hs]

/-- C2 witness: `N = 3`, two seeds, three streams, label `"chains"` fails
with the seeds-mismatch message (the spec's concrete scenario 6). -/
theorem check_pcg_vectors_seed_mismatch_witness :
    check_pcg_vectors ([10, 20] : List Nat) ([0, 1, 2] : List Int) 3 "chains"
      = Except.error "number of chains and seeds should be the same" :=
  check_pcg_vectors_seed_mismatch [10, 20] [0, 1, 2] 3 "chains" (by decide)

/-- C3: whenever the seed sequence's length equals `N` but the stream
sequence's length does not, `check_pcg_vectors` fails with exactly the
streams-mismatch message with the caller's label substituted. -/
theorem check_pcg_vectors_stream_mismatch {α : Type} (seeds : List α)
    (streams : List Int) (N : Nat) (msg : String)
    (hs : seeds.length = N) (ht : streams.length ≠ N) :
    check_pcg_vectors seeds streams N msg
      = Except.error ("number of " ++ msg ++ " and streams should be the same") := by
  simp [check_pcg_vectors, hs, ht]

/-- C3 witness: `N = 3`, three seeds, two streams, label `"workers"` fails
with the streams-mismatch message (the spec's concrete scenario 5). -/
theorem check_pcg_vectors_stream_mismatch_witness :
    check_pcg_vectors ([10, 20, 30] : List Nat) ([0, 1] : List Int) 3 "workers"
      = Except.error "number of workers and streams should be the same" :=
  check_pcg_vectors_stream_mismatch [10, 20, 30] [0, 1] 3 "workers" rfl (by decide)

/-- C4: when both lengths differ from `N`, the seed check short-circuits:
the reported error is always the seeds-mismatch message. -/
theorem check_pcg_vectors_seed_check_first {α : Type} (seeds : List α)
    (streams : List Int) (N : Nat) (msg : String)
    (hs : seeds.length ≠ N) (ht : streams.length ≠ N) :
    check_pcg_vectors seeds streams N msg
      = Except.error ("number of " ++ msg ++ " and seeds should be the same") := by
  simp [check_pcg_vectors, hs]

/-- C4 witness: `N = 2`, one seed, three streams: both lengths wrong yet
the message is the seeds-mismatch one. -/
theorem check_pcg_vectors_seed_check_first_witness :
    check_pcg_vectors ([7] : List Nat) ([0, 1, 2] : List Int) 2 "samples"
      = Except.error "number of samples and seeds should be the same" :=
  check_pcg_vectors_seed_check_first [7] [0, 1, 2] 2 "samples"
    (by decide) (by decide)

/-- C5: on every input, `check_pcg_vectors` either succeeds with no value
or fails with exactly one of the two literal formatted messages; no other
outcome or message is possible. -/
theorem check_pcg_vectors_outcomes {α : Type} (seeds : List α)
    (streams : List Int) (N : Nat) (msg : String) :
    check_pcg_vectors seeds streams N msg = Except.ok () ∨
    check_pcg_vectors seeds streams N msg
      = Except.error ("number of " ++ msg ++ " and seeds should be the same") ∨
    check_pcg_vectors seeds streams N msg
      = Except.error ("number of " ++ msg ++ " and streams should be the same") := by
  unfold check_pcg_vectors
  by_cases hs : seeds.length = N
  · by_cases ht : streams.length = N
    · exact Or.inl (by simp [hs, ht])
    · exact Or.inr (Or.inr (by simp [hs, ht]))
  · exact Or.inr (Or.inl (by simp [hs]))

/-- C6: when the external seed conversion succeeds, `create_pcg32` returns
a generator handle initialized with exactly the converted seed value and
the given stream index, with no other transformation. -/
theorem create_pcg32_ok {σ : Type} (convert_seed : σ → Except String Nat)
    (seed : σ) (stream : Int) (v : Nat)
    (hc : convert_seed seed = Except.ok v) :
    create_pcg32 convert_seed seed stream = Except.ok ⟨v, stream⟩ := by
  simp [create_pcg32, hc]

/-- C6 witness: with a concrete converter returning `42`, `create_pcg32`
yields the handle seeded with `42` and stream `5`. -/
theorem create_pcg32_ok_witness :
    create_pcg32 (fun _ : Nat => Except.ok 42) 0 5
      = Except.ok ⟨42, 5⟩ :=
  create_pcg32_ok (fun _ : Nat => Except.ok 42) 0 5 42 rfl

/-- C7: when the external seed conversion fails, `create_pcg32` propagates
the conversion error unchanged and constructs no generator handle. -/
theorem create_pcg32_propagates_error {σ : Type}
    (convert_seed : σ → Except String Nat) (seed : σ) (stream : Int)
    (e : String) (hc : convert_seed seed = Except.error e) :
    create_pcg32 convert_seed seed stream = Except.error e := by
  simp [create_pcg32, hc]

/-- C7 witness: with a converter failing on a concrete input, the same
error string comes back from `create_pcg32`. -/
theorem create_pcg32_propagates_error_witness :
    create_pcg32 (fun _ : Nat => Except.error "seed error") 0 5
      = Except.error "seed error" :=
  create_pcg32_propagates_error (fun _ : Nat => Except.error "seed error")
    0 5 "seed error" rfl

/-- C8: `check_pcg_vectors` performs no mutation: on every input state the
seeds, streams, `N` and label are unchanged after the call, whether it
succeeds or fails, and its result is exactly the pure function of the
arguments (so no state is retained between invocations). -/
theorem check_pcg_vectors_frame {α : Type} (st : CheckState α) :
    (check_pcg_vectors_st st).2 = st ∧
    (check_pcg_vectors_st st).1
      = check_pcg_vectors st.seeds st.streams st.N st.msg := by
  unfold check_pcg_vectors_st check_pcg_vectors
  by_cases hs : st.seeds.length = st.N
  · by_cases ht : st.streams.length = st.N
    · simp [hs, ht]
    · simp [hs, ht]
  · simp [hs]

/-- C9: `check_pcg_vectors` is deterministic and stateless: running it
again on the state a first run left behind yields the identical outcome,
result and state alike (idempotence of repeated identical invocations). -/
theorem check_pcg_vectors_idempotent {α : Type} (st : CheckState α) :
    check_pcg_vectors_st (check_pcg_vectors_st st).2
      = check_pcg_vectors_st st := by
  unfold check_pcg_vectors_st
  by_cases hs : st.seeds.length = st.N
  · by_cases ht : st.streams.length = st.N
    · simp [hs, ht]
    · simp [hs, ht]
  · simp [hs]

/-- C10: the outcome of `check_pcg_vectors` depends only on the two
sequence lengths, `N` and the label: two invocations whose sequences have
equal lengths give identical results even when every element differs
(elements of either sequence are never read). -/
theorem check_pcg_vectors_length_only {α β : Type} (seeds : List α)
    (seeds' : List β) (streams streams' : List Int) (N : Nat) (msg : String)
    (hs : seeds.length = seeds'.length)
    (ht : streams.length = streams'.length) :
    check_pcg_vectors seeds streams N msg
      = check_pcg_vectors seeds' streams' N msg := by
  unfold check_pcg_vectors
  rw [hs, ht]

/-- C10 witness: entirely different elements (and even a different seed
element type) with equal lengths give the identical result. -/
theorem check_pcg_vectors_length_only_witness :
    check_pcg_vectors ([1, 2] : List Nat) ([0, 1] : List Int) 2 "workers"
      = check_pcg_vectors (["a", "b"] : List String) ([9, -9] : List Int)
          2 "workers" :=
  check_pcg_vectors_length_only [1, 2] ["a", "b"] [0, 1] [9, -9] 2 "workers"
    rfl rfl
